import Mathlib

/-!
Verification of the electrolyzer digital-twin ingestion-and-assessment
pipeline against its natural-language specification.

The repository ships three near-duplicate backend variants:

  * software_stack/backend/backend_api.py        (the api variant)
  * software_stack/backend/electrolyzer_backend.py (the eb variant)
  * software_stack/backend/main.py               (the main variant)

Each Python function that a claim depends on is embedded below as a pure
Lean function.  Sensor values are modelled as rationals, optional JSON
fields as Option, Python exceptions as Except, and the raw MQTT byte
payload by whether json.loads succeeds on it and which record it yields.
-/

namespace ElectrolyzerTwin

/-- Python exceptions that can escape the embedded fragments. -/
inductive PyError
  | jsonDecodeError
  | keyError
  | valueError
deriving DecidableEq

/-- Statuses produced by the threshold chain in backend_api.py, lines 36-45. -/
inductive ThresholdStatus
  | normal
  | water_contamination_alert
  | voltage_anomaly_alert
  | overheating_alert
deriving DecidableEq

/-- backend_api.py line 23. -/
def THRESHOLD_VOLTAGE_HIGH : ℚ := 22/10

/-- backend_api.py line 24. -/
def THRESHOLD_CONDUCTIVITY_HIGH : ℚ := 5/10

/-- backend_api.py line 25. -/
def THRESHOLD_TEMP_HIGH : ℚ := 90

/-- A decoded JSON object as backend_api.py sees it: every field may be
absent, since the producer controls the payload. -/
structure ApiDict where
  temperature : Option ℚ
  voltage : Option ℚ
  current : Option ℚ
  conductivity : Option ℚ
  timestamp : Option String
deriving DecidableEq

/-- Python subscript access d[k]: raises KeyError when the key is absent. -/
def pyItem {α : Type} (o : Option α) : Except PyError α :=
  match o with
  | some v => Except.ok v
  | none => Except.error PyError.keyError

/-- The threshold chain of backend_api.py on_message, lines 36-45:
an if/elif/elif over payload subscripts, so a missing field raises
KeyError at the point where the chain first reads it. -/
def apiStatusExc (d : ApiDict) : Except PyError ThresholdStatus :=
  match d.conductivity with
  | none => Except.error PyError.keyError
  | some c =>
    if c > THRESHOLD_CONDUCTIVITY_HIGH then
      Except.ok ThresholdStatus.water_contamination_alert
    else
      match d.voltage with
      | none => Except.error PyError.keyError
      | some v =>
        if v > THRESHOLD_VOLTAGE_HIGH then
          Except.ok ThresholdStatus.voltage_anomaly_alert
        else
          match d.temperature with
          | none => Except.error PyError.keyError
          | some t =>
            if t > THRESHOLD_TEMP_HIGH then
              Except.ok ThresholdStatus.overheating_alert
            else
              Except.ok ThresholdStatus.normal

/-- A reading carrying every field the api variant reads. -/
structure ApiReading where
  temperature : ℚ
  voltage : ℚ
  current : ℚ
  conductivity : ℚ
deriving DecidableEq

/-- The dictionary a fully populated reading decodes to. -/
def fullDict (r : ApiReading) (ts : Option String) : ApiDict :=
  { temperature := some r.temperature
  , voltage := some r.voltage
  , current := some r.current
  , conductivity := some r.conductivity
  , timestamp := ts }

/-- The threshold rules in the priority order stated by the spec:
conductivity first, then voltage, then temperature. -/
def specRules : List ((ApiReading → Bool) × ThresholdStatus) :=
  [ (fun r => decide (r.conductivity > THRESHOLD_CONDUCTIVITY_HIGH),
      ThresholdStatus.water_contamination_alert)
  , (fun r => decide (r.voltage > THRESHOLD_VOLTAGE_HIGH),
      ThresholdStatus.voltage_anomaly_alert)
  , (fun r => decide (r.temperature > THRESHOLD_TEMP_HIGH),
      ThresholdStatus.overheating_alert) ]

/-- First-match-wins evaluation of an ordered rule list, following the
words of the spec (section 4.3): return the status of the first matching
rule, or the normal status when no rule matches. -/
def firstMatch (rules : List ((ApiReading → Bool) × ThresholdStatus))
    (r : ApiReading) : ThresholdStatus :=
  match rules with
  | [] => ThresholdStatus.normal
  | rule :: rest => if rule.1 r then rule.2 else firstMatch rest r

/-- backend_api.py lines 50-54: the placeholder prediction derived from the
threshold status alone. -/
def apiPrediction (st : ThresholdStatus) : String × ℕ :=
  if st ≠ ThresholdStatus.normal then ("Anomaly Detected", 45) else ("Normal", 99)

/-- A raw MQTT payload as backend_api.py receives it, classified by the
outcome of json.loads: either it parses to a record or it is not JSON. -/
inductive ApiPayload
  | json (d : ApiDict)
  | malformed
deriving DecidableEq

/-- backend_api.py on_message, lines 31-74.  The function body has no
try/except, so json.loads on a malformed payload and every subscript on an
incomplete record raise, and the exception propagates out of the MQTT
callback.  On success the handler writes the sensor point and the
prediction point; the value returned here is the pair that is written. -/
def api_on_message (msg : ApiPayload) :
    Except PyError (ThresholdStatus × (String × ℕ)) :=
  match msg with
  | ApiPayload.malformed => Except.error PyError.jsonDecodeError
  | ApiPayload.json d =>
    match apiStatusExc d with
    | Except.error e => Except.error e
    | Except.ok st =>
      match d.temperature with
      | none => Except.error PyError.keyError
      | some _ =>
        match d.voltage with
        | none => Except.error PyError.keyError
        | some _ =>
          match d.current with
          | none => Except.error PyError.keyError
          | some _ =>
            match d.conductivity with
            | none => Except.error PyError.keyError
            | some _ =>
              match d.timestamp with
              | none => Except.error PyError.keyError
              | some _ => Except.ok (st, apiPrediction st)

/-- A decoded JSON object as electrolyzer_backend.py sees it. -/
structure EbData where
  temperature : Option ℚ
  voltage : Option ℚ
  current : Option ℚ
  conductivity : Option ℚ
  timestamp : Option String
deriving DecidableEq

/-- electrolyzer_backend.py line 96, left disjunct:
data.get with default 0, compared against 0.5. -/
def ebConductivityRule (d : EbData) : Bool :=
  decide (d.conductivity.getD 0 > (5/10 : ℚ))

/-- electrolyzer_backend.py line 96, right disjunct:
data.get with default 0, compared against 2.05. -/
def ebVoltageRule (d : EbData) : Bool :=
  decide (d.voltage.getD 0 > (205/100 : ℚ))

/-- electrolyzer_backend.py line 96: the full anomaly condition. -/
def ebThresholdAnomaly (d : EbData) : Bool :=
  ebConductivityRule d || ebVoltageRule d

/-- electrolyzer_backend.py lines 94-98: predicted status and health score. -/
def ebPrediction (d : EbData) : String × ℕ :=
  if ebThresholdAnomaly d then ("anomaly", 45) else ("normal", 100)

/-- electrolyzer_backend.py lines 76-82: choose the point time.  A missing
or empty timestamp string is falsy in Python, so the current process time
is substituted; otherwise any Z marker is rewritten to +00:00 and
datetime.fromisoformat is applied, raising ValueError on an unrecognized
string.  The fromisoformat parser is standard-library code outside this
repository, so it enters as a parameter returning none exactly where the
real parser raises. -/
def eb_point_time (fromiso : String → Option ℚ) (now : ℚ)
    (ts : Option String) : Except PyError ℚ :=
  match ts with
  | none => Except.ok now
  | some s =>
    if s == ("") then Except.ok now
    else
      match fromiso (s.replace ("Z") ("+00:00")) with
      | some t => Except.ok t
      | none => Except.error PyError.valueError

/-- A raw MQTT payload as electrolyzer_backend.py receives it. -/
inductive EbPayload
  | json (d : EbData)
  | malformed
deriving DecidableEq

/-- Observable outcome of one run of the eb message handler. -/
inductive EbOutcome
  | written (pointTime : ℚ) (pred : String × ℕ)
  | droppedMalformedJson
  | droppedInvalidTimestamp
  | skippedNoWriteApi
deriving DecidableEq

/-- electrolyzer_backend.py on_mqtt_message, lines 69-115.  The whole body
sits in a try block: JSONDecodeError and ValueError are caught, logged and
the handler returns, so the failing message is dropped and nothing is
written for it.  On success both the sensor point (stamped with the chosen
point time) and the prediction point are written. -/
def eb_on_mqtt_message (fromiso : String → Option ℚ) (now : ℚ)
    (writeApi : Bool) (msg : EbPayload) : EbOutcome :=
  match msg with
  | EbPayload.malformed => EbOutcome.droppedMalformedJson
  | EbPayload.json d =>
    if writeApi then
      match eb_point_time fromiso now d.timestamp with
      | Except.error _ => EbOutcome.droppedInvalidTimestamp
      | Except.ok t => EbOutcome.written t (ebPrediction d)
    else EbOutcome.skippedNoWriteApi

/-- A decoded JSON object as main.py sees it. -/
structure MainData where
  temperature : Option ℚ
  pressure : Option ℚ
  voltage : Option ℚ
  current : Option ℚ
  flow_rate : Option ℚ
deriving DecidableEq

/-- A raw MQTT payload as main.py receives it. -/
inductive MainPayload
  | json (d : MainData)
  | malformed
deriving DecidableEq

/-- Observable outcome of one run of the main message handler. -/
inductive MainOutcome
  | processed
  | skippedNoWriteApi
  | droppedLogged
deriving DecidableEq

/-- main.py on_mqtt_message, lines 69-92.  The body sits in a blanket
try/except: json.loads runs before the latest_data assignment, so a
malformed payload is logged and dropped with the cache untouched, and the
handler returns normally in every case.  The function returns the new
cache contents together with the observable outcome. -/
def main_on_mqtt_message (writeApi : Bool) (latest_data : Option MainData)
    (msg : MainPayload) : Option MainData × MainOutcome :=
  match msg with
  | MainPayload.malformed => (latest_data, MainOutcome.droppedLogged)
  | MainPayload.json d =>
    (some d, if writeApi then MainOutcome.processed else MainOutcome.skippedNoWriteApi)

/-- main.py lines 159-163: the fixed feature ordering, with 0 substituted
for any absent field. -/
def mainFeatures (d : MainData) : List ℚ :=
  [ d.temperature.getD 0, d.pressure.getD 0, d.voltage.getD 0
  , d.current.getD 0, d.flow_rate.getD 0 ]

/-- The trained IsolationForest, abstracted to the two methods the
endpoint calls on it: predict and decision_function. -/
structure AiModel where
  predictOne : List ℚ → ℤ
  decisionFunction : List ℚ → ℚ
deriving Inhabited

/-- The JSON body returned by the predict endpoint. -/
structure PredictResponse where
  status : String
  health_score : ℚ
  probability : ℚ
deriving DecidableEq

/-- main.py line 167: max(0, min(100, (1 - abs(prob)) * 100)). -/
def predict_health_score (prob : ℚ) : ℚ :=
  max 0 (min 100 ((1 - |prob|) * 100))

/-- Written from the words of the spec (section 4.4): clamp(lo, hi, x). -/
def specClamp (lo hi x : ℚ) : ℚ :=
  max lo (min hi x)

/-- main.py predict_anomaly, lines 153-178.  When the latest-data cache is
empty or no model is loaded the endpoint raises HTTPException with status
code 400; otherwise it scores the cached reading. -/
def predict_anomaly (latest_data : Option MainData) (model : Option AiModel) :
    Except ℕ PredictResponse :=
  match latest_data, model with
  | some d, some m =>
    let features := mainFeatures d
    let prediction := m.predictOne features
    let prob := m.decisionFunction features
    let health_score := predict_health_score prob
    let status := if prediction = -1 then ("anomaly") else ("normal")
    Except.ok { status := status, health_score := health_score, probability := |prob| }
  | _, _ => Except.error 400

/-- main.py line 37: SECRET_KEY falls back to a hard-coded default when the
environment variable is unset. -/
def main_secret_key (env : Option String) : String :=
  env.getD ("your-secret-key")

/-- The JSON body returned by the eb health endpoint. -/
structure HealthReport where
  overall : String
  influxdb : String
  mqtt : String
deriving DecidableEq

/-- Side effects performed while computing the health report. -/
inductive HealthEffect
  | influxProbeQuery
deriving DecidableEq

/-- electrolyzer_backend.py health_check, lines 182-205.  When an influx
client exists the endpoint issues a live limit-1 query against the sink
and maps success or exception to connected or not_connected; the mqtt
verdict reads is_connected on the client.  The overall field starts as ok
and is demoted to degraded when any value equals not_connected.  The
effect list records the probe query the endpoint performs. -/
def health_check (influxClientPresent probeSucceeds mqttConnected : Bool) :
    HealthReport × List HealthEffect :=
  let influxPair : String × List HealthEffect :=
    if influxClientPresent then
      ((if probeSucceeds then ("connected") else ("not_connected")),
        [HealthEffect.influxProbeQuery])
    else (("not_connected"), [])
  let mqttStatus := if mqttConnected then ("connected") else ("not_connected")
  let overall :=
    if influxPair.1 == ("not_connected") || mqttStatus == ("not_connected")
    then ("degraded") else ("ok")
  ({ overall := overall, influxdb := influxPair.1, mqtt := mqttStatus }, influxPair.2)

/-- electrolyzer_backend.py setup_influxdb, lines 36-58.  An unset or
default token is logged as an error and reported as failure; otherwise
success depends on whether a client could be constructed within the retry
loop. -/
def setup_influxdb (envToken : Option String) (connectOk : Bool) : Bool :=
  let token := envToken.getD ("influx-token-2024")
  if token == ("") || token == ("influx-token-2024") then false
  else connectOk

/-- What the eb lifespan startup leaves behind before the app starts
serving. -/
structure LifespanStart where
  influx_success : Bool
  mqtt_success : Bool
  loggedStartupError : Bool
deriving DecidableEq

/-- electrolyzer_backend.py lifespan, lines 147-157.  Both failure and
success branches only log, then execution reaches the yield and the
application serves; an aborted startup would be an error value, and no
branch produces one. -/
def lifespan_startup (envToken : Option String)
    (influxConnectOk mqttSetupOk : Bool) : Except String LifespanStart :=
  let influx_success := setup_influxdb envToken influxConnectOk
  if !influx_success || !mqttSetupOk then
    Except.ok { influx_success := influx_success
              , mqtt_success := mqttSetupOk
              , loggedStartupError := true }
  else
    Except.ok { influx_success := influx_success
              , mqtt_success := mqttSetupOk
              , loggedStartupError := false }

/-- C1: backend_api evaluates its threshold rules in the fixed priority
order conductivity, then voltage, then temperature, returning the status
of the first matching rule, and any reading whose conductivity exceeds the
0.5 threshold is classified as the contamination alert regardless of its
voltage and temperature. -/
theorem c1_threshold_priority (r : ApiReading) (ts : Option String) :
    apiStatusExc (fullDict r ts) = Except.ok (firstMatch specRules r) ∧
    (THRESHOLD_CONDUCTIVITY_HIGH < r.conductivity →
      apiStatusExc (fullDict r ts) =
        Except.ok ThresholdStatus.water_contamination_alert) := by
  constructor
  · simp only [apiStatusExc, fullDict, firstMatch, specRules]
    split_ifs <;> simp_all <;> linarith
  · intro h
    simp [apiStatusExc, fullDict, h]

/-- C1 witness: a concrete reading with conductivity 0.6 is classified as
the contamination alert even though its voltage and temperature are in the
normal range. -/
theorem c1_witness :
    apiStatusExc (fullDict ⟨75, 19/10, 550, 6/10⟩ none) =
      Except.ok ThresholdStatus.water_contamination_alert :=
  (c1_threshold_priority ⟨75, 19/10, 550, 6/10⟩ none).2
    (by norm_num [THRESHOLD_CONDUCTIVITY_HIGH])

/-- C2: in both backend variants a reading that triggers any threshold
alert receives the fixed alert score 45, which is the minimum of the
constant placeholder scorer output (99 in the api variant, 100 in the eb
variant) and the alert cap, and in particular is at most 45. -/
theorem c2_alert_caps_score :
    (∀ (d : ApiDict) (st : ThresholdStatus),
      apiStatusExc d = Except.ok st → st ≠ ThresholdStatus.normal →
      (apiPrediction st).2 = min 99 45 ∧ (apiPrediction st).2 ≤ 45) ∧
    (∀ d : EbData, ebThresholdAnomaly d = true →
      (ebPrediction d).2 = min 100 45 ∧ (ebPrediction d).2 ≤ 45) := by
  constructor
  · intro d st _ hne
    unfold apiPrediction
    rw [if_pos hne]
    exact ⟨by decide, by decide⟩
  · intro d h
    unfold ebPrediction
    rw [if_pos (by simp [h])]
    exact ⟨by decide, by decide⟩

/-- C2 witness: the contamination alert on a concrete reading caps the
merged score at 45. -/
theorem c2_witness :
    (apiPrediction ThresholdStatus.water_contamination_alert).2 ≤ 45 :=
  (c2_alert_caps_score.1
    { temperature := some 75, voltage := some (19/10), current := some 550
    , conductivity := some (6/10), timestamp := none }
    ThresholdStatus.water_contamination_alert
    (by
      have h1 : THRESHOLD_CONDUCTIVITY_HIGH < (6:ℚ)/10 := by
        norm_num [THRESHOLD_CONDUCTIVITY_HIGH]
      simp [apiStatusExc, h1])
    (by decide)).2

/-- C3 counterexample: the backend_api message handler has no exception
handling, so a payload that is not valid JSON makes json.loads raise and
the JSONDecodeError propagates out of the MQTT callback, killing the
listener thread instead of being dropped and logged.  The claim that a
decode failure never crashes the ingestion loop is therefore false for
this variant. -/
theorem c3_counterexample :
    api_on_message ApiPayload.malformed = Except.error PyError.jsonDecodeError := rfl

/-- C3 amended: in the main and eb variants the handler body sits in a
try/except, so a non-JSON payload is logged and dropped, the latest-state
cache is left unchanged, and the handler returns normally so processing
continues; the backend_api variant instead propagates the decode
exception. -/
theorem c3_amended_drop_and_continue :
    (∀ (writeApi : Bool) (latest : Option MainData),
      main_on_mqtt_message writeApi latest MainPayload.malformed =
        (latest, MainOutcome.droppedLogged)) ∧
    (∀ (fromiso : String → Option ℚ) (now : ℚ) (writeApi : Bool),
      eb_on_mqtt_message fromiso now writeApi EbPayload.malformed =
        EbOutcome.droppedMalformedJson) :=
  ⟨fun _ _ => rfl, fun _ _ _ => rfl⟩

/-- C4: the statistical scorer health score is exactly
clamp(0, 100, (1 - abs(decision value)) * 100) and always lies in
[0, 100]; the scores produced on the other code paths (99 and 45 in the
api variant, 100 and 45 in the eb variant) also lie in [0, 100]. -/
theorem c4_health_score_clamp :
    (∀ prob : ℚ,
      predict_health_score prob = specClamp 0 100 ((1 - |prob|) * 100) ∧
      0 ≤ predict_health_score prob ∧ predict_health_score prob ≤ 100) ∧
    (∀ (d : MainData) (m : AiModel) (r : PredictResponse),
      predict_anomaly (some d) (some m) = Except.ok r →
      0 ≤ r.health_score ∧ r.health_score ≤ 100) ∧
    (∀ st : ThresholdStatus, (apiPrediction st).2 ≤ 100) ∧
    (∀ d : EbData, (ebPrediction d).2 ≤ 100) := by
  have hb : ∀ prob : ℚ,
      0 ≤ predict_health_score prob ∧ predict_health_score prob ≤ 100 := by
    intro prob
    refine ⟨le_max_left 0 _, max_le (by norm_num) (min_le_left 100 _)⟩
  refine ⟨fun prob => ⟨rfl, hb prob⟩, ?_, ?_, ?_⟩
  · intro d m r h
    simp only [predict_anomaly] at h
    injection h with h
    subst h
    exact hb _
  · intro st
    cases st <;> decide
  · intro d
    unfold ebPrediction
    split_ifs <;> decide

/-- C4 witness: scoring a concrete cached reading with a concrete model
whose decision value is 0 yields health score 100, inside [0, 100]. -/
theorem c4_witness :
    0 ≤ (PredictResponse.mk ("normal") 100 0).health_score ∧
      (PredictResponse.mk ("normal") 100 0).health_score ≤ 100 :=
  c4_health_score_clamp.2.1
    { temperature := some 70, pressure := some 30, voltage := some 48
    , current := some 100, flow_rate := some 5 }
    { predictOne := fun _ => 1, decisionFunction := fun _ => 0 }
    (PredictResponse.mk ("normal") 100 0)
    (by
      simp only [predict_anomaly, predict_health_score, mainFeatures]
      norm_num [min_self, max_eq_right])

/-- C5 counterexample: the backend_api rule chain reads the payload with
raw subscripts, so a reading that lacks the conductivity field raises
KeyError instead of treating the rule as not triggered; evaluation is not
total over readings with a missing field. -/
theorem c5_counterexample :
    apiStatusExc { temperature := some 75, voltage := some (19/10)
                 , current := some 550, conductivity := none
                 , timestamp := none } =
      Except.error PyError.keyError := rfl

/-- C5 amended: in the eb variant a field absent from the reading defaults
to zero, so the corresponding rule is not triggered and evaluation is
total; in the backend_api variant a missing field raises KeyError. -/
theorem c5_amended_default_zero (d : EbData) :
    (d.conductivity = none → ebConductivityRule d = false) ∧
    (d.voltage = none → ebVoltageRule d = false) ∧
    (d.conductivity = none → d.voltage = none → ebThresholdAnomaly d = false) := by
  have hc : ¬ ((0:ℚ) > 5/10) := by norm_num
  have hv : ¬ ((0:ℚ) > 205/100) := by norm_num
  refine ⟨?_, ?_, ?_⟩
  · intro h
    simp [ebConductivityRule, h, hc]
  · intro h
    simp [ebVoltageRule, h, hv]
  · intro h1 h2
    simp [ebThresholdAnomaly, ebConductivityRule, ebVoltageRule, h1, h2, hc, hv]

/-- C5 witness: a concrete eb reading with no conductivity and no voltage
field triggers no rule. -/
theorem c5_witness :
    ebThresholdAnomaly { temperature := some 75, voltage := none
                       , current := some 550, conductivity := none
                       , timestamp := none } = false :=
  (c5_amended_default_zero _).2.2 rfl rfl

/-- C6 counterexample: a payload whose timestamp field is present but not
parsable by fromisoformat makes the eb handler raise ValueError, which is
caught and the whole message is dropped: decoding does not succeed with a
synthesized timestamp and the message is rejected, contrary to the
claim. -/
theorem c6_counterexample :
    eb_on_mqtt_message (fun _ => none) 0 true
      (EbPayload.json { temperature := some 75, voltage := some (19/10)
                      , current := some 550, conductivity := some (3/10)
                      , timestamp := some ("not-a-timestamp") }) =
      EbOutcome.droppedInvalidTimestamp := rfl

/-- C6 amended: a payload whose timestamp field is absent is accepted and
its point time is the current process time (hence trivially within one
second of decode time); a payload with an unparsable timestamp raises
ValueError and is dropped, and no synthesized-timestamp flag is exposed
anywhere. -/
theorem c6_amended_absent_timestamp (fromiso : String → Option ℚ) (now : ℚ)
    (d : EbData) (h : d.timestamp = none) :
    eb_on_mqtt_message fromiso now true (EbPayload.json d) =
      EbOutcome.written now (ebPrediction d) := by
  simp [eb_on_mqtt_message, eb_point_time, h]

/-- C6 witness: a concrete payload without a timestamp field is written
with the current process time as its point time. -/
theorem c6_witness :
    eb_on_mqtt_message (fun _ => none) 7 true
      (EbPayload.json { temperature := some 75, voltage := some (19/10)
                      , current := some 550, conductivity := some (3/10)
                      , timestamp := none }) =
      EbOutcome.written 7 (("normal"), 100) := by
  rw [c6_amended_absent_timestamp (fun _ => none) 7 _ rfl]
  have h1 : ¬ ((3:ℚ)/10 > 5/10) := by norm_num
  have h2 : ¬ ((19:ℚ)/10 > 205/100) := by norm_num
  simp [ebPrediction, ebThresholdAnomaly, ebConductivityRule, ebVoltageRule, h1, h2]

/-- C7 counterexample: with no model loaded, the predict endpoint raises
HTTPException 400 on a concrete cached reading instead of returning the
safe default of no anomaly with health score 100. -/
theorem c7_counterexample :
    predict_anomaly
      (some { temperature := some 70, pressure := some 30, voltage := some 48
            , current := some 100, flow_rate := some 5 }) none =
      Except.error 400 := rfl

/-- C7 amended: whenever the model is absent, or no reading has been
cached yet, the predict endpoint fails with HTTP status 400 rather than
degrading to a threshold-only default. -/
theorem c7_amended_http400 :
    (∀ latest : Option MainData,
      predict_anomaly latest none = Except.error 400) ∧
    (∀ m : Option AiModel,
      predict_anomaly none m = Except.error 400) := by
  constructor
  · intro l
    cases l <;> rfl
  · intro m
    cases m <;> rfl

/-- C8 counterexample: computing the health verdict with a live influx
client issues a probe query against the sink, a blocking side effect, so
the aggregator is not a pure function of the two current connection
states. -/
theorem c8_counterexample :
    (health_check true true true).2 = [HealthEffect.influxProbeQuery] := rfl

/-- C8 amended: the reported overall verdict is ok exactly when both the
sink probe reports connected and the mqtt client is connected, and every
other combination is reported as degraded; however the sink verdict comes
from a live blocking probe query, not from a stored connection state. -/
theorem c8_amended_overall_iff (influxClientPresent probeSucceeds mqttConnected : Bool) :
    ((health_check influxClientPresent probeSucceeds mqttConnected).1.overall = ("ok") ↔
      ((health_check influxClientPresent probeSucceeds mqttConnected).1.influxdb = ("connected") ∧
       (health_check influxClientPresent probeSucceeds mqttConnected).1.mqtt = ("connected"))) ∧
    ((health_check influxClientPresent probeSucceeds mqttConnected).1.overall = ("ok") ∨
     (health_check influxClientPresent probeSucceeds mqttConnected).1.overall = ("degraded")) := by
  cases influxClientPresent <;> cases probeSucceeds <;> cases mqttConnected <;> decide

/-- C8 witness: with both channels connected the verdict is ok. -/
theorem c8_witness : (health_check true true true).1.overall = ("ok") :=
  (c8_amended_overall_iff true true true).1.mpr (by decide)

/-- C9 counterexample: with the sink token missing from the environment,
startup logs the configuration error but still reaches the yield and the
application serves, and the JWT secret silently falls back to the
hard-coded insecure default, so startup is not stopped by a fatal
configuration error. -/
theorem c9_counterexample :
    lifespan_startup none true true =
      Except.ok { influx_success := false, mqtt_success := true
                , loggedStartupError := true } ∧
    main_secret_key none = ("your-secret-key") := ⟨rfl, rfl⟩

/-- C9 amended: a missing or default sink token makes setup report failure
and the startup path log an error, but the application always proceeds to
serve in a degraded state, and a missing SECRET_KEY is replaced by the
insecure hard-coded default rather than aborting startup. -/
theorem c9_amended_degraded_continue :
    (∀ influxConnectOk mqttSetupOk : Bool,
      lifespan_startup none influxConnectOk mqttSetupOk =
        Except.ok { influx_success := false, mqtt_success := mqttSetupOk
                  , loggedStartupError := true }) ∧
    main_secret_key none = ("your-secret-key") := by
  constructor
  · intro c m
    cases c <;> cases m <;> rfl
  · rfl

/-- C10: every successfully processed message in the backend_api variant
receives its prediction purely from the threshold status, and that
prediction takes exactly the two value pairs Normal with 99 when no rule
fires and Anomaly Detected with 45 otherwise; no continuous statistical
score is ever produced on this path. -/
theorem c10_two_valued :
    (∀ (d : ApiDict) (res : ThresholdStatus × (String × ℕ)),
      api_on_message (ApiPayload.json d) = Except.ok res →
      res.2 = apiPrediction res.1) ∧
    (∀ st : ThresholdStatus,
      (apiPrediction st = (("Normal"), 99) ∧ st = ThresholdStatus.normal) ∨
      (apiPrediction st = (("Anomaly Detected"), 45) ∧ st ≠ ThresholdStatus.normal)) := by
  constructor
  · intro d res h
    rcases d with ⟨t, v, c, k, ts⟩
    cases hst : apiStatusExc ⟨t, v, c, k, ts⟩ with
    | error e =>
      simp [api_on_message, hst] at h
    | ok st =>
      suffices hres : res = (st, apiPrediction st) by rw [hres]
      cases t <;> cases v <;> cases c <;> cases k <;> cases ts <;>
        simp only [api_on_message, hst] at h <;> simp_all
  · intro st
    cases st <;> decide

/-- C10 witness: a concrete fully populated normal reading yields exactly
the Normal pair with score 99. -/
theorem c10_witness :
    ((("Normal"), 99) : String × ℕ) = apiPrediction ThresholdStatus.normal :=
  c10_two_valued.1
    { temperature := some 75, voltage := some (19/10), current := some 550
    , conductivity := some (3/10), timestamp := some ("2024-01-01") }
    (ThresholdStatus.normal, (("Normal"), 99))
    (by
      have h1 : ¬ ((3:ℚ)/10 > THRESHOLD_CONDUCTIVITY_HIGH) := by
        norm_num [THRESHOLD_CONDUCTIVITY_HIGH]
      have h2 : ¬ ((19:ℚ)/10 > THRESHOLD_VOLTAGE_HIGH) := by
        norm_num [THRESHOLD_VOLTAGE_HIGH]
      have h3 : ¬ ((75:ℚ) > THRESHOLD_TEMP_HIGH) := by
        norm_num [THRESHOLD_TEMP_HIGH]
      simp [api_on_message, apiStatusExc, apiPrediction, h1, h2, h3])

end ElectrolyzerTwin
